import Mathlib

/-!
Verification development for the VCS capture core.

Shallow embedding of the data model and operations of the VCS repository:
the resolution/video-parameter data model (src/display/display.h and the
on-disk record layer src/common/disk.cpp), and the capture-side event,
frame-slot and parameter-lookup logic declared in
src/capture/capture_api_rgbeasy.h.  The implementation file behind that
header (capture_api_rgbeasy.cpp) and the headers capture/capture.h,
capture/alias.h and common/csv.h are not among the available sources, so
the definitions that depend on them are modelled from the specification,
as marked in their doc comments.
-/

namespace VCS

/-- resolution_s from src/display/display.h (lines 54-69): width, height and
bits per pixel, each an `unsigned long` (32-bit on the Windows build target,
so values are below 2^32). -/
structure resolution_s where
  w : Nat
  h : Nat
  bpp : Nat
deriving Repr, DecidableEq

/-- resolution_s::operator== from src/display/display.h lines 58-63:
componentwise comparison of w, h and bpp. -/
def resolution_s.eq (a b : resolution_s) : Bool :=
  (a.w == b.w) && (a.h == b.h) && (a.bpp == b.bpp)

/-- resolution_s::operator!= from src/display/display.h lines 65-68:
the negation of operator==. -/
def resolution_s.ne (a b : resolution_s) : Bool :=
  !(resolution_s.eq a b)

/-- The five video parameters of a mode-params record, in the order they are
written by kdisk_save_mode_params (src/common/disk.cpp lines 118-122).  The
declaring header (capture/capture.h) is not among the sources; the spec
describes them as bounded non-negative analog adjustment values, so each
field is a Nat. -/
structure video_settings_s where
  verticalPosition : Nat
  horizontalPosition : Nat
  horizontalScale : Nat
  phase : Nat
  blackLevel : Nat
deriving Repr, DecidableEq

/-- The eight color parameters of a mode-params record, in the order they are
written by kdisk_save_mode_params (src/common/disk.cpp lines 125-132). -/
structure color_settings_s where
  overallBrightness : Nat
  overallContrast : Nat
  redBrightness : Nat
  redContrast : Nat
  greenBrightness : Nat
  greenContrast : Nat
  blueBrightness : Nat
  blueContrast : Nat
deriving Repr, DecidableEq

/-- video_mode_params_s: a resolution together with its video and color
parameters, as saved/loaded by src/common/disk.cpp.  The declaring header is
not among the sources; the field set is exactly the one handled by
disk.cpp. -/
structure video_mode_params_s where
  r : resolution_s
  video : video_settings_s
  color : color_settings_s
deriving Repr, DecidableEq

/-- mode_alias_s: a mapping from one resolution to another, as loaded by
kdisk_load_aliases (src/common/disk.cpp lines 501-548).  The declaring
header (capture/alias.h) is not among the sources.  The on-disk alias
record carries only the w and h of each side (4 fields per row), so the
bpp of both sides is 0 here. -/
structure mode_alias_s where
  fromRes : resolution_s
  toRes : resolution_s
deriving Repr, DecidableEq

/-! ## Signal parameter store (spec section 4.1)

The store's implementation lives in capture_api_rgbeasy.cpp, which is not
among the sources; only its declarations (get_video_signal_parameters_for_resolution,
knownVideoModes, set_mode_params in src/capture/capture_api_rgbeasy.h) are.
The lookup below is therefore modelled from the spec. -/

/-- Whether a mode-params record applies to a detected resolution: an exact
match on width and height.  Modelled from the spec: the matcher inside
get_video_signal_parameters_for_resolution (capture_api_rgbeasy.cpp, absent);
the spec calls bpp an optional component of a resolution, and the persisted
records (src/common/disk.cpp) carry only w and h, so matching is on those. -/
def modeMatches (m : video_mode_params_s) (r : resolution_s) : Bool :=
  (m.r.w == r.w) && (m.r.h == r.h)

/-- Whether an alias entry applies to a detected resolution: an exact match
of the entry's source side on the resolution's width and height.  Modelled
from the spec: "check ModeAlias list for an exact match on the reported
resolution" (the alias machinery's implementation is absent from the
sources). -/
def aliasMatches (a : mode_alias_s) (r : resolution_s) : Bool :=
  (a.fromRes.w == r.w) && (a.fromRes.h == r.h)

/-- Modelled from the spec: step (1) of the resolution algorithm in spec
section 4.1 — "check ModeAlias list for an exact match on the reported
resolution; if found, substitute the aliased resolution for all subsequent
lookups".  A single substitution step using the first matching entry. -/
def aliased_resolution (aliases : List mode_alias_s) (r : resolution_s) : resolution_s :=
  match aliases.find? (fun a => aliasMatches a r) with
  | some a => a.toRes
  | none => r

/-- Modelled from the spec: steps (2) and (3) of the resolution algorithm in
spec section 4.1 — search the KnownVideoMode list for an exact resolution
match and return its parameters, else return the deterministic configured
default (passed in as defaultParams). -/
def known_mode_params (defaultParams : video_mode_params_s)
    (knownVideoModes : List video_mode_params_s) (r : resolution_s) : video_mode_params_s :=
  match knownVideoModes.find? (fun m => modeMatches m r) with
  | some m => m
  | none => defaultParams

/-- Modelled from the spec: get_video_signal_parameters_for_resolution
(declared at src/capture/capture_api_rgbeasy.h line 85, implementation
absent) — alias substitution followed by the known-mode search. -/
def get_video_signal_parameters_for_resolution (defaultParams : video_mode_params_s)
    (aliases : List mode_alias_s) (knownVideoModes : List video_mode_params_s)
    (r : resolution_s) : video_mode_params_s :=
  known_mode_params defaultParams knownVideoModes (aliased_resolution aliases r)

/-! ## The on-disk record layer (src/common/disk.cpp)

disk.cpp reads and writes CSV text through common/csv.h and Qt streams,
neither of which is among the sources.  Files are modelled at row level:
a file is a list of rows, a row a list of cells, a cell either a tag string
or a number (the decimal numeral the Qt stream would print). -/

/-- A CSV cell.  Modelled from the spec: the CSV text layer (common/csv.h,
absent from the sources) is represented at row level; numeric text is
carried as the number it denotes. -/
inductive csvCell where
  | str (s : String)
  | num (n : Nat)
deriving Repr, DecidableEq

/-- A parsed CSV row, as produced by csv_parse_c(...).contents(). -/
abbrev csvRow := List csvCell

/-- QString::toUInt on a cell, as used by src/common/disk.cpp: a numeral in
32-bit unsigned range yields its value, anything else yields 0. -/
def cellToUInt : csvCell → Nat
  | .num n => if n < 2 ^ 32 then n else 0
  | .str _ => 0

/-- QString::toInt on a cell, as used by src/common/disk.cpp for the video
and color parameters (non-negative here, see video_settings_s): a numeral in
int range yields its value, anything else yields 0. -/
def cellToInt : csvCell → Nat
  | .num n => if n < 2 ^ 31 then n else 0
  | .str _ => 0

/-- The rows written for one mode-params record by kdisk_save_mode_params
(src/common/disk.cpp lines 112-136): a 3-cell resolution row followed by the
thirteen name,value parameter rows.  The blank separator line the code also
writes produces no CSV row. -/
def mode_params_rows (m : video_mode_params_s) : List csvRow :=
  [ [.str "resolution", .num m.r.w, .num m.r.h],
    [.str "vPos", .num m.video.verticalPosition],
    [.str "hPos", .num m.video.horizontalPosition],
    [.str "hScale", .num m.video.horizontalScale],
    [.str "phase", .num m.video.phase],
    [.str "bLevel", .num m.video.blackLevel],
    [.str "bright", .num m.color.overallBrightness],
    [.str "contr", .num m.color.overallContrast],
    [.str "redBr", .num m.color.redBrightness],
    [.str "redCn", .num m.color.redContrast],
    [.str "greenBr", .num m.color.greenBrightness],
    [.str "greenCn", .num m.color.greenContrast],
    [.str "blueBr", .num m.color.blueBrightness],
    [.str "blueCn", .num m.color.blueContrast] ]

/-- kdisk_save_mode_params (src/common/disk.cpp lines 105-155), at row
level: one block of rows per record, in list order. -/
def kdisk_save_mode_params (modeParams : List video_mode_params_s) : List csvRow :=
  (modeParams.map mode_params_rows).flatten

/-- The get_param lambda of kdisk_load_video_mode_params (src/common/disk.cpp
lines 187-196): the row must carry the expected tag in its first cell; its
second cell is read with toInt.  A row too short to index yields failure. -/
def get_mode_param (name : String) : csvRow → Option Nat
  | .str tag :: v :: _ => if tag = name then some (cellToInt v) else none
  | _ => none

/-- One block of the loop of kdisk_load_video_mode_params (src/common/disk.cpp
lines 172-222): a 3-cell "resolution" row, then the thirteen parameters in
their fixed order.  The loaded record's bpp is the default 0 (the loader
never assigns it). -/
def load_mode_params_block (rows : List csvRow) :
    Option (video_mode_params_s × List csvRow) :=
  match rows with
  | row0 :: r1 :: r2 :: r3 :: r4 :: r5 :: r6 :: r7 :: r8 :: r9 :: r10 :: r11 :: r12 :: r13 :: rest =>
    match row0 with
    | [.str tag, wc, hc] =>
      if tag = "resolution" then
        match get_mode_param "vPos" r1, get_mode_param "hPos" r2,
              get_mode_param "hScale" r3, get_mode_param "phase" r4,
              get_mode_param "bLevel" r5, get_mode_param "bright" r6,
              get_mode_param "contr" r7 with
        | some vP, some hP, some hS, some ph, some bL, some br, some co =>
          match get_mode_param "redBr" r8, get_mode_param "redCn" r9,
                get_mode_param "greenBr" r10, get_mode_param "greenCn" r11,
                get_mode_param "blueBr" r12, get_mode_param "blueCn" r13 with
          | some rB, some rC, some gB, some gC, some bB, some bC =>
            some (⟨⟨cellToUInt wc, cellToUInt hc, 0⟩,
                   ⟨vP, hP, hS, ph, bL⟩,
                   ⟨br, co, rB, rC, gB, gC, bB, bC⟩⟩, rest)
          | _, _, _, _, _, _ => none
        | _, _, _, _, _, _, _ => none
      else none
    | _ => none
  | _ => none

/-- The block loop of kdisk_load_video_mode_params, with fuel bounded by the
row count (every block consumes at least one row, so fuel = rows.length
always suffices). -/
def load_mode_params_blocks : Nat → List csvRow → Option (List video_mode_params_s)
  | _, [] => some []
  | 0, _ :: _ => none
  | fuel + 1, rows =>
    match load_mode_params_block rows with
    | none => none
    | some (p, rest) => (load_mode_params_blocks fuel rest).map (p :: ·)

/-- The sort at src/common/disk.cpp lines 225-226: ascending by resolution
area w*h (std::sort with that comparator; insertion sort is one conforming
refinement of its unspecified equal-key order). -/
def sort_mode_params_by_area (ps : List video_mode_params_s) : List video_mode_params_s :=
  ps.insertionSort (fun a b => a.r.w * a.r.h ≤ b.r.w * b.r.h)

/-- kdisk_load_video_mode_params (src/common/disk.cpp lines 157-238) at row
level.  Returns the function's boolean result together with the list that is
propagated onward (none when nothing is propagated): an empty source
filename is reported as success with nothing loaded; a malformed file fails
with nothing propagated; otherwise the records, sorted ascending by
resolution area, are propagated. -/
def kdisk_load_video_mode_params (sourceFilename : String) (paramRows : List csvRow) :
    Bool × Option (List video_mode_params_s) :=
  if sourceFilename.isEmpty then (true, none)
  else
    match load_mode_params_blocks paramRows.length paramRows with
    | none => (false, none)
    | some ps => (true, some (sort_mode_params_by_area ps))

/-- One row of the alias-file loop of kdisk_load_aliases (src/common/disk.cpp
lines 512-527): exactly 4 cells, read with toUInt into the from/to sides
(whose bpp the loader never assigns, staying 0). -/
def load_alias_row : csvRow → Option mode_alias_s
  | [c0, c1, c2, c3] =>
      some ⟨⟨cellToUInt c0, cellToUInt c1, 0⟩, ⟨cellToUInt c2, cellToUInt c3, 0⟩⟩
  | _ => none

/-- The row loop of kdisk_load_aliases: every row must parse, else the whole
load fails. -/
def load_alias_rows : List csvRow → Option (List mode_alias_s)
  | [] => some []
  | row :: rest =>
    match load_alias_row row with
    | none => none
    | some a => (load_alias_rows rest).map (a :: ·)

/-- kdisk_load_aliases (src/common/disk.cpp lines 501-548) at row level:
empty filename is success with nothing loaded; any malformed row fails the
load with nothing propagated; otherwise the aliases, sorted ascending by the
area of their target resolution (lines 530-531), are propagated. -/
def kdisk_load_aliases (sourceFilename : String) (rowData : List csvRow) :
    Bool × Option (List mode_alias_s) :=
  if sourceFilename.isEmpty then (true, none)
  else
    match load_alias_rows rowData with
    | none => (false, none)
    | some as =>
      (true, some (as.insertionSort (fun a b => a.toRes.w * a.toRes.h ≤ b.toRes.w * b.toRes.h)))

/-! ## Capture events (spec section 4.2)

The event machinery is declared in src/capture/capture_api_rgbeasy.h
(push_capture_event, pop_capture_event, pop_capture_event_queue, the
rgbeasyCaptureEventFlags array); its implementation and the declaring enum
header (capture/capture_api.h) are absent from the sources, so the
definitions are modelled from the spec. -/

/-- capture_event_e.  Modelled from the spec: the fixed enumeration of event
kinds (spec section 3), plus the no-event value a poll returns when no flag
is set.  The declaring header capture/capture_api.h is absent. -/
inductive capture_event_e where
  | noEvent
  | newSignalGained
  | signalLost
  | invalidSignal
  | newVideoMode
  | newFrame
  | unrecoverableError
deriving Repr, DecidableEq

/-- The sticky per-kind event flags (rgbeasyCaptureEventFlags, declared at
src/capture/capture_api_rgbeasy.h lines 120-123), as a function from event
kind to flag value. -/
def eventFlags_t : Type := capture_event_e → Bool

/-- push_capture_event (declared at src/capture/capture_api_rgbeasy.h line
30).  Modelled from the spec: idempotently sets the flag for that event
kind. -/
def push_capture_event (e : capture_event_e) (flags : eventFlags_t) : eventFlags_t :=
  fun k => if k = e then true else flags k

/-- pop_capture_event (declared at src/capture/capture_api_rgbeasy.h line
95).  Modelled from the spec: returns whether the flag for the kind was set,
and clears it. -/
def pop_capture_event (e : capture_event_e) (flags : eventFlags_t) :
    Bool × eventFlags_t :=
  (flags e, fun k => if k = e then false else flags k)

/-- The fixed drain priority of pop_capture_event_queue.  Modelled from the
spec: unrecoverable-error first, then the signal-state events, then
new-frame last (spec section 4.4). -/
def event_queue_priority : List capture_event_e :=
  [.unrecoverableError, .signalLost, .invalidSignal, .newVideoMode, .newSignalGained, .newFrame]

/-- pop_capture_event_queue (declared at src/capture/capture_api_rgbeasy.h
line 68).  Modelled from the spec: polls the sticky flags in the fixed
priority order and surfaces at most one event, clearing the flag it
returns. -/
def pop_capture_event_queue (flags : eventFlags_t) : capture_event_e × eventFlags_t :=
  if flags .unrecoverableError then (.unrecoverableError, (pop_capture_event .unrecoverableError flags).2)
  else if flags .signalLost then (.signalLost, (pop_capture_event .signalLost flags).2)
  else if flags .invalidSignal then (.invalidSignal, (pop_capture_event .invalidSignal flags).2)
  else if flags .newVideoMode then (.newVideoMode, (pop_capture_event .newVideoMode flags).2)
  else if flags .newSignalGained then (.newSignalGained, (pop_capture_event .newSignalGained flags).2)
  else if flags .newFrame then (.newFrame, (pop_capture_event .newFrame flags).2)
  else (.noEvent, flags)

/-! ## Frame buffer slot and controller state (spec sections 4.3 and 4.4)

Modelled from the spec: the frame slot protocol, the skip window and the
missed-frames counter are implemented in capture_api_rgbeasy.cpp, which is
absent from the sources; the header declares the pieces
(reserve_frame_buffer, unreserve_frame_buffer, get_missed_frames_count,
should_current_frame_be_skipped, skipNextNumFrames). -/

/-- The frame slot's occupancy.  Modelled from the spec (section 4.3); the
transient Filling state is internal to a single begin_write call and is not
observable in this sequential embedding. -/
inductive frame_slot_state_e where
  | empty
  | filled
  | reserved
deriving Repr, DecidableEq

/-- The capture controller state shared between the callback thread and the
consumer thread.  Modelled from the spec: the single-slot frame buffer, the
sticky event flags, the missed-frames counter and the skip window
(skipNextNumFrames, src/capture/capture_api_rgbeasy.h line 128). -/
structure rgbeasy_state_s where
  slot : frame_slot_state_e
  frameBuffer : List Nat
  frameRes : resolution_s
  missedFramesCount : Nat
  skipNextNumFrames : Nat
  eventFlags : eventFlags_t

/-- get_missed_frames_count (declared at src/capture/capture_api_rgbeasy.h
line 56). -/
def get_missed_frames_count (s : rgbeasy_state_s) : Nat :=
  s.missedFramesCount

/-- should_current_frame_be_skipped (declared at
src/capture/capture_api_rgbeasy.h line 61): whether the skip window is
still open. -/
def should_current_frame_be_skipped (s : rgbeasy_state_s) : Bool :=
  s.skipNextNumFrames > 0

/-- Modelled from the spec: the frame-ready callback path of
capture_api_rgbeasy.cpp (absent), i.e. the slot's begin_write entry
(spec section 4.3) combined with the skip window (spec section 4.4).
A frame inside the skip window is discarded (no event, no copy); a frame
arriving while the slot is still occupied is rejected, incrementing the
missed-frames counter and leaving the buffer bytes untouched; otherwise the
pixel data is copied into the slot, the slot becomes filled, and a
new-frame event is posted. -/
def begin_write (pixelData : List Nat) (r : resolution_s) (s : rgbeasy_state_s) :
    rgbeasy_state_s :=
  if should_current_frame_be_skipped s then
    { s with skipNextNumFrames := s.skipNextNumFrames - 1 }
  else if s.slot ≠ .empty then
    { s with missedFramesCount := s.missedFramesCount + 1 }
  else
    { s with slot := .filled,
             frameBuffer := pixelData,
             frameRes := r,
             eventFlags := push_capture_event .newFrame s.eventFlags }

/-- reserve_frame_buffer (declared at src/capture/capture_api_rgbeasy.h line
66).  Modelled from the spec: on a filled slot, reserve it and hand out a
read-only view; otherwise nothing is available. -/
def reserve_frame_buffer (s : rgbeasy_state_s) :
    Option (List Nat × resolution_s) × rgbeasy_state_s :=
  if s.slot = .filled then
    (some (s.frameBuffer, s.frameRes), { s with slot := .reserved })
  else
    (none, s)

/-- unreserve_frame_buffer (declared at src/capture/capture_api_rgbeasy.h
line 67).  Modelled from the spec: releases a reserved slot back to
empty. -/
def unreserve_frame_buffer (s : rgbeasy_state_s) : rgbeasy_state_s :=
  if s.slot = .reserved then { s with slot := .empty } else s

/-- apply_new_capture_resolution (declared at
src/capture/capture_api_rgbeasy.h line 76).  Modelled from the spec
(section 4.4): looks up the signal parameters for the new resolution and
pushes them to the driver (recorded here as the current-parameters field),
resets the missed-frames counter, and arms the configured N-frame skip
window. -/
def apply_new_capture_resolution (numFramesToSkip : Nat)
    (defaultParams : video_mode_params_s) (aliases : List mode_alias_s)
    (knownVideoModes : List video_mode_params_s) (r : resolution_s)
    (s : rgbeasy_state_s) : video_mode_params_s × rgbeasy_state_s :=
  (get_video_signal_parameters_for_resolution defaultParams aliases knownVideoModes r,
   { s with missedFramesCount := 0, skipNextNumFrames := numFramesToSkip })

/-- One tick of the two-thread hand-off, sequentialized: a captured frame
arrives via begin_write, then the consumer polls the new-frame flag and, if
one is available, reserves and releases the slot.  Modelled from the spec
(sections 5 and 6: the consumer polls once per loop tick).  The returned
Bool is whether the consumer observed a new-frame event this tick. -/
def capture_tick (frame : List Nat × resolution_s) (s : rgbeasy_state_s) :
    Bool × rgbeasy_state_s :=
  let s1 := begin_write frame.1 frame.2 s
  let popped := pop_capture_event .newFrame s1.eventFlags
  let s2 := { s1 with eventFlags := popped.2 }
  if popped.1 then
    (true, unreserve_frame_buffer (reserve_frame_buffer s2).2)
  else
    (false, s2)

/-- Runs a sequence of ticks, collecting which of them delivered a
consumer-visible new-frame event. -/
def run_capture_ticks : List (List Nat × resolution_s) → rgbeasy_state_s →
    List Bool × rgbeasy_state_s
  | [], s => ([], s)
  | f :: fs, s =>
    let t := capture_tick f s
    let rest := run_capture_ticks fs t.2
    (t.1 :: rest.1, rest.2)

/-! ## Controller mutation operations (spec section 4.4, claim C6)

Modelled from the spec: set_input_channel, set_input_color_depth,
change_resolution, adjust_horizontal_offset and adjust_vertical_offset are
declared at src/capture/capture_api_rgbeasy.h lines 71-75; their
implementation (capture_api_rgbeasy.cpp) is absent.  Each validates the
request against device-reported bounds, issues the driver call, and returns
success or failure.  The driver call's outcome is an oracle Bool input. -/

/-- The controller settings observable through the query operations:
current input channel index, color depth, capture resolution, and the
current video signal parameters. -/
structure capture_settings_s where
  inputChannelIdx : Nat
  colorDepth : Nat
  captureRes : resolution_s
  signalParams : video_settings_s
deriving Repr, DecidableEq

/-- The device-reported bounds used for validation: input count, minimum and
maximum resolution, and the minimum/maximum video signal parameters. -/
structure device_bounds_s where
  maxInputCount : Nat
  minRes : resolution_s
  maxRes : resolution_s
  minParams : video_settings_s
  maxParams : video_settings_s
deriving Repr, DecidableEq

/-- set_input_channel (declared at src/capture/capture_api_rgbeasy.h line
73).  Modelled from the spec: the channel index must be below the device's
input count, then the driver call must succeed; any failure leaves the
settings unchanged. -/
def set_input_channel (bounds : device_bounds_s) (driverCallSucceeds : Bool)
    (channel : Nat) (s : capture_settings_s) : Bool × capture_settings_s :=
  if channel ≥ bounds.maxInputCount then (false, s)
  else if driverCallSucceeds then (true, { s with inputChannelIdx := channel })
  else (false, s)

/-- set_input_color_depth (declared at src/capture/capture_api_rgbeasy.h
line 74).  Modelled from the spec: the capture color depths the device
supports are 24, 16 and 15 bits (the GUI's options,
src/display/qt/windows/control_panel_window.cpp lines 802-821). -/
def set_input_color_depth (driverCallSucceeds : Bool) (bpp : Nat)
    (s : capture_settings_s) : Bool × capture_settings_s :=
  if bpp ≠ 24 ∧ bpp ≠ 16 ∧ bpp ≠ 15 then (false, s)
  else if driverCallSucceeds then (true, { s with colorDepth := bpp })
  else (false, s)

/-- change_resolution (declared at src/capture/capture_api_rgbeasy.h line
75).  Modelled from the spec: the requested resolution must lie within the
device's minimum and maximum supported resolution. -/
def change_resolution (bounds : device_bounds_s) (driverCallSucceeds : Bool)
    (r : resolution_s) (s : capture_settings_s) : Bool × capture_settings_s :=
  if r.w < bounds.minRes.w ∨ r.h < bounds.minRes.h ∨
     r.w > bounds.maxRes.w ∨ r.h > bounds.maxRes.h then (false, s)
  else if driverCallSucceeds then (true, { s with captureRes := r })
  else (false, s)

/-- adjust_horizontal_offset (declared at src/capture/capture_api_rgbeasy.h
line 71).  Modelled from the spec: the adjusted horizontal position must
stay within the device's parameter bounds, then the driver call must
succeed. -/
def adjust_horizontal_offset (bounds : device_bounds_s) (driverCallSucceeds : Bool)
    (delta : Int) (s : capture_settings_s) : Bool × capture_settings_s :=
  let newPos : Int := (s.signalParams.horizontalPosition : Int) + delta
  if newPos < (bounds.minParams.horizontalPosition : Int) ∨
     newPos > (bounds.maxParams.horizontalPosition : Int) then (false, s)
  else if driverCallSucceeds then
    (true, { s with signalParams := { s.signalParams with horizontalPosition := newPos.toNat } })
  else (false, s)

/-- adjust_vertical_offset (declared at src/capture/capture_api_rgbeasy.h
line 72).  Modelled from the spec, symmetrically to
adjust_horizontal_offset. -/
def adjust_vertical_offset (bounds : device_bounds_s) (driverCallSucceeds : Bool)
    (delta : Int) (s : capture_settings_s) : Bool × capture_settings_s :=
  let newPos : Int := (s.signalParams.verticalPosition : Int) + delta
  if newPos < (bounds.minParams.verticalPosition : Int) ∨
     newPos > (bounds.maxParams.verticalPosition : Int) then (false, s)
  else if driverCallSucceeds then
    (true, { s with signalParams := { s.signalParams with verticalPosition := newPos.toNat } })
  else (false, s)

/-! ## Helpers for theorems and witnesses -/

/-- A mode-params record all of whose adjustment values are n, for the given
resolution; used to build concrete witnesses. -/
def sampleParams (n : Nat) (r : resolution_s) : video_mode_params_s :=
  ⟨r, ⟨n, n, n, n, n⟩, ⟨n, n, n, n, n, n, n, n⟩⟩

/-- Setting a flag twice is the same as setting it once. -/
theorem push_capture_event_idem (e : capture_event_e) (flags : eventFlags_t) :
    push_capture_event e (push_capture_event e flags) = push_capture_event e flags := by
  funext k
  by_cases h : k = e <;> simp [push_capture_event, h]

/-- find? is invariant under permutation when at most one element can
satisfy the predicate. -/
theorem find?_congr_of_perm_of_subsingleton {α : Type} (p : α → Bool) {l1 l2 : List α}
    (hp : l1.Perm l2)
    (huniq : ∀ x ∈ l1, ∀ y ∈ l1, p x = true → p y = true → x = y) :
    l1.find? p = l2.find? p := by
  cases h1 : l1.find? p with
  | none =>
    cases h2 : l2.find? p with
    | none => rfl
    | some y =>
      have hy : p y = true := List.find?_some h2
      have hmy : y ∈ l1 := hp.mem_iff.mpr (List.mem_of_find?_eq_some h2)
      exact absurd hy (List.find?_eq_none.mp h1 y hmy)
  | some x =>
    have hx : p x = true := List.find?_some h1
    have hmx : x ∈ l1 := List.mem_of_find?_eq_some h1
    cases h2 : l2.find? p with
    | none =>
      exact absurd hx (List.find?_eq_none.mp h2 x (hp.mem_iff.mp hmx))
    | some y =>
      have hy : p y = true := List.find?_some h2
      have hmy : y ∈ l1 := hp.mem_iff.mpr (List.mem_of_find?_eq_some h2)
      exact congrArg some (huniq x hmx y hmy hx hy)

/-! ## Claim theorems -/

/-- C8: resolution_s equality holds iff the widths, heights and color depths
are componentwise equal, and operator!= is the exact negation of operator==,
for every pair of resolution_s values. -/
theorem C8_resolution_equality_componentwise (a b : resolution_s) :
    (resolution_s.eq a b = true ↔ (a.w = b.w ∧ a.h = b.h ∧ a.bpp = b.bpp)) ∧
    resolution_s.ne a b = !(resolution_s.eq a b) := by
  constructor
  · simp [resolution_s.eq, and_assoc]
  · rfl

/-- C1 counterexample: with the alias list
[640×480 → 800×600, 800×600 → 1024×768] and known modes for 800×600 and
1024×768, the list has an entry mapping 640×480 to 800×600, yet the lookup
for 640×480 (the 800×600 record) differs from the direct lookup for 800×600
(which is itself aliased on to 1024×768). -/
theorem C1_alias_lookup_counterexample :
    (⟨⟨640, 480, 0⟩, ⟨800, 600, 0⟩⟩ : mode_alias_s) ∈
      [(⟨⟨640, 480, 0⟩, ⟨800, 600, 0⟩⟩ : mode_alias_s), ⟨⟨800, 600, 0⟩, ⟨1024, 768, 0⟩⟩] ∧
    get_video_signal_parameters_for_resolution (sampleParams 0 ⟨0, 0, 0⟩)
        [⟨⟨640, 480, 0⟩, ⟨800, 600, 0⟩⟩, ⟨⟨800, 600, 0⟩, ⟨1024, 768, 0⟩⟩]
        [sampleParams 1 ⟨800, 600, 0⟩, sampleParams 2 ⟨1024, 768, 0⟩]
        ⟨640, 480, 0⟩ ≠
      get_video_signal_parameters_for_resolution (sampleParams 0 ⟨0, 0, 0⟩)
        [⟨⟨640, 480, 0⟩, ⟨800, 600, 0⟩⟩, ⟨⟨800, 600, 0⟩, ⟨1024, 768, 0⟩⟩]
        [sampleParams 1 ⟨800, 600, 0⟩, sampleParams 2 ⟨1024, 768, 0⟩]
        ⟨800, 600, 0⟩ := by
  decide

/-- C1 (amended): for every resolution R whose first matching ModeAlias
entry maps it to R2, where R2 itself has no matching ModeAlias entry, the
signal-parameter lookup for R returns exactly the record a direct lookup for
R2 returns, for every state of the KnownVideoMode list. -/
theorem C1_alias_lookup_agrees (defaultParams : video_mode_params_s)
    (aliases : List mode_alias_s) (knownVideoModes : List video_mode_params_s)
    (R R2 : resolution_s) (a : mode_alias_s)
    (hfind : aliases.find? (fun x => aliasMatches x R) = some a)
    (hto : a.toRes = R2)
    (hnone : aliases.find? (fun x => aliasMatches x R2) = none) :
    get_video_signal_parameters_for_resolution defaultParams aliases knownVideoModes R =
      get_video_signal_parameters_for_resolution defaultParams aliases knownVideoModes R2 := by
  unfold get_video_signal_parameters_for_resolution aliased_resolution
  rw [hfind, hnone]
  simp [hto]

/-- C1 witness: the amended lookup agreement at a concrete alias list and
known-mode list. -/
theorem C1_alias_lookup_agrees_witness :
    get_video_signal_parameters_for_resolution (sampleParams 0 ⟨0, 0, 0⟩)
        [⟨⟨640, 480, 0⟩, ⟨800, 600, 0⟩⟩] [sampleParams 1 ⟨800, 600, 0⟩] ⟨640, 480, 0⟩ =
      get_video_signal_parameters_for_resolution (sampleParams 0 ⟨0, 0, 0⟩)
        [⟨⟨640, 480, 0⟩, ⟨800, 600, 0⟩⟩] [sampleParams 1 ⟨800, 600, 0⟩] ⟨800, 600, 0⟩ :=
  C1_alias_lookup_agrees _ _ _ _ _ ⟨⟨640, 480, 0⟩, ⟨800, 600, 0⟩⟩
    (by decide) (by decide) (by decide)

/-- Iterating a post N ≥ 1 times is the same as posting once. -/
theorem push_capture_event_iterate (e : capture_event_e) (flags : eventFlags_t) :
    ∀ N, 1 ≤ N → (push_capture_event e)^[N] flags = push_capture_event e flags := by
  intro N hN
  obtain ⟨m, rfl⟩ : ∃ m, N = m + 1 := ⟨N - 1, (Nat.succ_pred_eq_of_pos hN).symm⟩
  clear hN
  induction m with
  | zero => simp
  | succ m ih =>
    rw [Function.iterate_succ_apply', ih, push_capture_event_idem]

/-- C3: posting an event kind N ≥ 1 times before a single poll of that kind
leaves the flags exactly as a single post would (the N−1 later posts are
no-ops), the poll then observes the flag set, and a further poll of the same
kind after the first has cleared it observes it not set. -/
theorem C3_sticky_event_flag_collapse (e : capture_event_e) (flags : eventFlags_t)
    (N : Nat) (hN : 1 ≤ N) :
    (∀ k, (push_capture_event e)^[N] flags k = push_capture_event e flags k) ∧
    (pop_capture_event e ((push_capture_event e)^[N] flags)).1 = true ∧
    (pop_capture_event e (pop_capture_event e ((push_capture_event e)^[N] flags)).2).1 = false := by
  rw [push_capture_event_iterate e flags N hN]
  refine ⟨fun k => rfl, ?_, ?_⟩
  · simp [pop_capture_event, push_capture_event]
  · simp [pop_capture_event]

/-- C3 witness: three posts of the new-frame kind on all-clear flags behave
as one post; the first poll sees the flag, the next does not. -/
theorem C3_sticky_event_flag_collapse_witness :
    (∀ k, (push_capture_event .newFrame)^[3] (fun _ => false) k =
        push_capture_event .newFrame (fun _ => false) k) ∧
    (pop_capture_event .newFrame ((push_capture_event .newFrame)^[3] (fun _ => false))).1 = true ∧
    (pop_capture_event .newFrame
      (pop_capture_event .newFrame ((push_capture_event .newFrame)^[3] (fun _ => false))).2).1 = false :=
  C3_sticky_event_flag_collapse .newFrame (fun _ => false) 3 (by decide)

/-- C4: a single poll of the event queue surfaces exactly the first set flag
in the fixed priority order (unrecoverable-error, then the signal-state
events, then new-frame last); in particular, whenever any error or
signal-state flag is set, the new-frame flag is not the one returned. -/
theorem C4_pop_event_queue_priority (flags : eventFlags_t) :
    (pop_capture_event_queue flags).1 =
      (event_queue_priority.find? (fun e => flags e)).getD .noEvent ∧
    ((flags .unrecoverableError || flags .signalLost || flags .invalidSignal ||
        flags .newVideoMode || flags .newSignalGained) = true →
      (pop_capture_event_queue flags).1 ≠ .newFrame) := by
  cases h1 : flags .unrecoverableError <;>
    cases h2 : flags .signalLost <;>
      cases h3 : flags .invalidSignal <;>
        cases h4 : flags .newVideoMode <;>
          cases h5 : flags .newSignalGained <;>
            cases h6 : flags .newFrame <;>
              simp [pop_capture_event_queue, event_queue_priority, List.find?,
                    h1, h2, h3, h4, h5, h6]

/-- Concrete flags for the C4 witness: signal-lost and new-frame both
pending. -/
def C4exampleFlags : eventFlags_t :=
  fun e => e == .signalLost || e == .newFrame

/-- C4 witness: with both the signal-lost and the new-frame flag set, the
poll returns the first set flag of the priority order, which is not
new-frame. -/
theorem C4_pop_event_queue_priority_witness :
    (pop_capture_event_queue C4exampleFlags).1 =
      (event_queue_priority.find? (fun e => C4exampleFlags e)).getD .noEvent ∧
    (pop_capture_event_queue C4exampleFlags).1 ≠ .newFrame :=
  ⟨(C4_pop_event_queue_priority C4exampleFlags).1,
   (C4_pop_event_queue_priority C4exampleFlags).2 (by decide)⟩

/-- C2: when a frame has been written into the slot and no
reserve_for_read/release cycle has freed it, a second begin_write is
rejected: the missed-frames counter grows by exactly 1, and the frame
buffer's bytes, the slot state and the event flags are untouched by the
rejected call. -/
theorem C2_second_begin_write_rejected (s : rgbeasy_state_s)
    (d1 d2 : List Nat) (r1 r2 : resolution_s)
    (hskip : s.skipNextNumFrames = 0) (hslot : s.slot = .empty) :
    get_missed_frames_count (begin_write d2 r2 (begin_write d1 r1 s)) =
      get_missed_frames_count (begin_write d1 r1 s) + 1 ∧
    (begin_write d1 r1 s).frameBuffer = d1 ∧
    (begin_write d2 r2 (begin_write d1 r1 s)).frameBuffer = (begin_write d1 r1 s).frameBuffer ∧
    (begin_write d2 r2 (begin_write d1 r1 s)).slot = (begin_write d1 r1 s).slot ∧
    (begin_write d2 r2 (begin_write d1 r1 s)).eventFlags = (begin_write d1 r1 s).eventFlags := by
  have h1 : begin_write d1 r1 s =
      { s with slot := .filled, frameBuffer := d1, frameRes := r1,
               eventFlags := push_capture_event .newFrame s.eventFlags } := by
    simp [begin_write, should_current_frame_be_skipped, hskip, hslot]
  rw [h1]
  simp [begin_write, should_current_frame_be_skipped, hskip, get_missed_frames_count]

/-- C2 witness: the rejection of an immediate second begin_write at a
concrete initial state. -/
theorem C2_second_begin_write_rejected_witness :
    get_missed_frames_count
        (begin_write [3, 4] ⟨2, 1, 0⟩
          (begin_write [1, 2] ⟨2, 1, 0⟩ ⟨.empty, [], ⟨0, 0, 0⟩, 0, 0, fun _ => false⟩)) =
      get_missed_frames_count
        (begin_write [1, 2] ⟨2, 1, 0⟩ ⟨.empty, [], ⟨0, 0, 0⟩, 0, 0, fun _ => false⟩) + 1 ∧
    (begin_write [1, 2] ⟨2, 1, 0⟩ ⟨.empty, [], ⟨0, 0, 0⟩, 0, 0, fun _ => false⟩).frameBuffer = [1, 2] ∧
    (begin_write [3, 4] ⟨2, 1, 0⟩
        (begin_write [1, 2] ⟨2, 1, 0⟩ ⟨.empty, [], ⟨0, 0, 0⟩, 0, 0, fun _ => false⟩)).frameBuffer =
      (begin_write [1, 2] ⟨2, 1, 0⟩ ⟨.empty, [], ⟨0, 0, 0⟩, 0, 0, fun _ => false⟩).frameBuffer ∧
    (begin_write [3, 4] ⟨2, 1, 0⟩
        (begin_write [1, 2] ⟨2, 1, 0⟩ ⟨.empty, [], ⟨0, 0, 0⟩, 0, 0, fun _ => false⟩)).slot =
      (begin_write [1, 2] ⟨2, 1, 0⟩ ⟨.empty, [], ⟨0, 0, 0⟩, 0, 0, fun _ => false⟩).slot ∧
    (begin_write [3, 4] ⟨2, 1, 0⟩
        (begin_write [1, 2] ⟨2, 1, 0⟩ ⟨.empty, [], ⟨0, 0, 0⟩, 0, 0, fun _ => false⟩)).eventFlags =
      (begin_write [1, 2] ⟨2, 1, 0⟩ ⟨.empty, [], ⟨0, 0, 0⟩, 0, 0, fun _ => false⟩).eventFlags :=
  C2_second_begin_write_rejected _ _ _ _ _ rfl rfl

/-- A tick inside the skip window only closes the window by one frame: no
consumer-visible new-frame event, no other state change. -/
theorem capture_tick_skips (f : List Nat × resolution_s) (s : rgbeasy_state_s)
    (hpos : 0 < s.skipNextNumFrames) (hflag : s.eventFlags .newFrame = false) :
    capture_tick f s =
      (false, { s with skipNextNumFrames := s.skipNextNumFrames - 1 }) := by
  have hbw : begin_write f.1 f.2 s = { s with skipNextNumFrames := s.skipNextNumFrames - 1 } := by
    simp [begin_write, should_current_frame_be_skipped, hpos]
  simp [capture_tick, hbw, pop_capture_event, hflag]
  funext k
  by_cases h : k = capture_event_e.newFrame <;> simp [h, hflag]

/-- Running k ≤ skip-window ticks delivers no new-frame event and only
shrinks the window by k. -/
theorem run_capture_ticks_skip_window (frames : List (List Nat × resolution_s)) :
    ∀ s : rgbeasy_state_s, frames.length ≤ s.skipNextNumFrames →
      s.eventFlags .newFrame = false →
      run_capture_ticks frames s =
        (List.replicate frames.length false,
         { s with skipNextNumFrames := s.skipNextNumFrames - frames.length }) := by
  induction frames with
  | nil => intro s _ _; simp [run_capture_ticks]
  | cons f fs ih =>
    intro s hle hflag
    have hpos : 0 < s.skipNextNumFrames :=
      Nat.lt_of_lt_of_le (Nat.succ_pos fs.length) hle
    have hstep := capture_tick_skips f s hpos hflag
    have hrest := ih { s with skipNextNumFrames := s.skipNextNumFrames - 1 }
      (by simpa using Nat.le_sub_one_of_lt (Nat.lt_of_lt_of_le (Nat.lt_succ_self fs.length) hle))
      hflag
    simp only [run_capture_ticks, hstep, hrest, List.replicate_succ, List.length_cons]
    simp [Nat.sub_sub, Nat.add_comm]

/-- A tick with the skip window closed and the slot free delivers the frame:
the consumer observes a new-frame event. -/
theorem capture_tick_delivers (f : List Nat × resolution_s) (s : rgbeasy_state_s)
    (hskip : s.skipNextNumFrames = 0) (hslot : s.slot = .empty) :
    (capture_tick f s).1 = true := by
  simp [capture_tick, begin_write, should_current_frame_be_skipped, hskip, hslot,
        pop_capture_event, push_capture_event]

/-- Running a tick sequence splits over list append. -/
theorem run_capture_ticks_append (a b : List (List Nat × resolution_s)) :
    ∀ s : rgbeasy_state_s,
      run_capture_ticks (a ++ b) s =
        ((run_capture_ticks a s).1 ++ (run_capture_ticks b (run_capture_ticks a s).2).1,
         (run_capture_ticks b (run_capture_ticks a s).2).2) := by
  induction a with
  | nil => intro s; simp [run_capture_ticks]
  | cons f fs ih => intro s; simp [run_capture_ticks, ih]

/-- C5: after apply_new_capture_resolution arms a skip window of N frames,
the missed-frames counter reads zero; the next N otherwise-valid captured
frames are all discarded without a consumer-visible new-frame event; and the
frame after those N is delivered normally. -/
theorem C5_skip_window_discards_exactly_n (numFramesToSkip : Nat)
    (frames : List (List Nat × resolution_s)) (hlen : frames.length = numFramesToSkip)
    (f : List Nat × resolution_s) (defaultParams : video_mode_params_s)
    (aliases : List mode_alias_s) (knownVideoModes : List video_mode_params_s)
    (r : resolution_s) (s : rgbeasy_state_s)
    (hslot : s.slot = .empty) (hflag : s.eventFlags .newFrame = false) :
    get_missed_frames_count
      (apply_new_capture_resolution numFramesToSkip defaultParams aliases knownVideoModes r s).2 = 0 ∧
    (run_capture_ticks frames
      (apply_new_capture_resolution numFramesToSkip defaultParams aliases knownVideoModes r s).2).1 =
      List.replicate numFramesToSkip false ∧
    (run_capture_ticks (frames ++ [f])
      (apply_new_capture_resolution numFramesToSkip defaultParams aliases knownVideoModes r s).2).1 =
      List.replicate numFramesToSkip false ++ [true] := by
  subst hlen
  set s0 := (apply_new_capture_resolution frames.length defaultParams aliases knownVideoModes r s).2
    with hs0
  have hs0' : s0 = { s with missedFramesCount := 0, skipNextNumFrames := frames.length } := rfl
  have hskiprun := run_capture_ticks_skip_window frames s0
    (by simp [hs0']) (by rw [hs0']; exact hflag)
  refine ⟨rfl, ?_, ?_⟩
  · rw [hskiprun]
  · rw [run_capture_ticks_append, hskiprun]
    have hdeliver := capture_tick_delivers f
      { s0 with skipNextNumFrames := s0.skipNextNumFrames - frames.length }
      (by simp [hs0']) (by simp [hs0', hslot])
    simp [run_capture_ticks, hdeliver]

/-- C5 witness: a 2-frame skip window at a concrete state discards exactly
the next two frames and delivers the third. -/
theorem C5_skip_window_discards_exactly_n_witness :
    get_missed_frames_count
      (apply_new_capture_resolution 2 (sampleParams 0 ⟨0, 0, 0⟩) [] [] ⟨640, 480, 0⟩
        ⟨.empty, [], ⟨0, 0, 0⟩, 7, 0, fun _ => false⟩).2 = 0 ∧
    (run_capture_ticks [([1], ⟨640, 480, 0⟩), ([2], ⟨640, 480, 0⟩)]
      (apply_new_capture_resolution 2 (sampleParams 0 ⟨0, 0, 0⟩) [] [] ⟨640, 480, 0⟩
        ⟨.empty, [], ⟨0, 0, 0⟩, 7, 0, fun _ => false⟩).2).1 = List.replicate 2 false ∧
    (run_capture_ticks ([([1], ⟨640, 480, 0⟩), ([2], ⟨640, 480, 0⟩)] ++ [([3], ⟨640, 480, 0⟩)])
      (apply_new_capture_resolution 2 (sampleParams 0 ⟨0, 0, 0⟩) [] [] ⟨640, 480, 0⟩
        ⟨.empty, [], ⟨0, 0, 0⟩, 7, 0, fun _ => false⟩).2).1 = List.replicate 2 false ++ [true] :=
  C5_skip_window_discards_exactly_n 2 [([1], ⟨640, 480, 0⟩), ([2], ⟨640, 480, 0⟩)] rfl
    ([3], ⟨640, 480, 0⟩) _ _ _ _ _ rfl rfl

/-- The common shape of the controller mutation operations: a bounds check,
then a driver call, then the update.  Whenever the result is failure, the
settings are returned untouched. -/
theorem guarded_update_fail_keeps_state {σ : Type} (c : Prop) [Decidable c]
    (driverOk : Bool) (s t : σ)
    (h : (if c then ((false : Bool), s) else if driverOk then (true, t) else (false, s)).1 = false) :
    (if c then ((false : Bool), s) else if driverOk then (true, t) else (false, s)).2 = s := by
  by_cases hc : c
  · rw [if_pos hc]
  · rw [if_neg hc] at h ⊢
    cases driverOk
    · rfl
    · exact absurd h (by simp)

/-- C6: for each of set_input_channel, set_input_color_depth,
change_resolution, adjust_horizontal_offset and adjust_vertical_offset, a
call that returns failure (bounds validation failed or the driver call
failed) leaves every observable controller setting exactly as it was —
no partial application. -/
theorem C6_failed_mutations_keep_settings (bounds : device_bounds_s)
    (ok1 ok2 ok3 ok4 ok5 : Bool) (channel bpp : Nat) (r : resolution_s)
    (dh dv : Int) (s : capture_settings_s) :
    ((set_input_channel bounds ok1 channel s).1 = false →
      (set_input_channel bounds ok1 channel s).2 = s) ∧
    ((set_input_color_depth ok2 bpp s).1 = false →
      (set_input_color_depth ok2 bpp s).2 = s) ∧
    ((change_resolution bounds ok3 r s).1 = false →
      (change_resolution bounds ok3 r s).2 = s) ∧
    ((adjust_horizontal_offset bounds ok4 dh s).1 = false →
      (adjust_horizontal_offset bounds ok4 dh s).2 = s) ∧
    ((adjust_vertical_offset bounds ok5 dv s).1 = false →
      (adjust_vertical_offset bounds ok5 dv s).2 = s) :=
  ⟨guarded_update_fail_keeps_state _ _ _ _,
   guarded_update_fail_keeps_state _ _ _ _,
   guarded_update_fail_keeps_state _ _ _ _,
   guarded_update_fail_keeps_state _ _ _ _,
   guarded_update_fail_keeps_state _ _ _ _⟩

/-- Concrete device bounds for the C6 witness. -/
def C6exampleBounds : device_bounds_s :=
  ⟨2, ⟨160, 120, 0⟩, ⟨1920, 1080, 0⟩, ⟨0, 0, 0, 0, 0⟩, ⟨100, 100, 100, 100, 100⟩⟩

/-- Concrete settings for the C6 witness. -/
def C6exampleSettings : capture_settings_s :=
  ⟨0, 24, ⟨640, 480, 24⟩, ⟨50, 50, 50, 50, 50⟩⟩

/-- C6 witness: five concrete failing calls — channel out of range, an
unsupported color depth, a resolution above the maximum, an offset
adjustment that overshoots its bound, and a driver-rejected adjustment —
each leave the settings untouched. -/
theorem C6_failed_mutations_keep_settings_witness :
    (set_input_channel C6exampleBounds true 5 C6exampleSettings).2 = C6exampleSettings ∧
    (set_input_color_depth true 7 C6exampleSettings).2 = C6exampleSettings ∧
    (change_resolution C6exampleBounds true ⟨4096, 4096, 0⟩ C6exampleSettings).2 = C6exampleSettings ∧
    (adjust_horizontal_offset C6exampleBounds true 1000 C6exampleSettings).2 = C6exampleSettings ∧
    (adjust_vertical_offset C6exampleBounds false (-1) C6exampleSettings).2 = C6exampleSettings :=
  ⟨(C6_failed_mutations_keep_settings C6exampleBounds true true true true false
      5 7 ⟨4096, 4096, 0⟩ 1000 (-1) C6exampleSettings).1 (by decide),
   (C6_failed_mutations_keep_settings C6exampleBounds true true true true false
      5 7 ⟨4096, 4096, 0⟩ 1000 (-1) C6exampleSettings).2.1 (by decide),
   (C6_failed_mutations_keep_settings C6exampleBounds true true true true false
      5 7 ⟨4096, 4096, 0⟩ 1000 (-1) C6exampleSettings).2.2.1 (by decide),
   (C6_failed_mutations_keep_settings C6exampleBounds true true true true false
      5 7 ⟨4096, 4096, 0⟩ 1000 (-1) C6exampleSettings).2.2.2.1 (by decide),
   (C6_failed_mutations_keep_settings C6exampleBounds true true true true false
      5 7 ⟨4096, 4096, 0⟩ 1000 (-1) C6exampleSettings).2.2.2.2 (by decide)⟩

/-- An alias row without exactly 4 fields does not parse. -/
theorem load_alias_row_none_of_bad_length (row : csvRow) (h : row.length ≠ 4) :
    load_alias_row row = none := by
  rcases row with _ | ⟨a, _ | ⟨b, _ | ⟨c, _ | ⟨d, _ | ⟨e, t⟩⟩⟩⟩⟩ <;>
    simp_all [load_alias_row]

/-- One bad row anywhere fails the whole alias load. -/
theorem load_alias_rows_none_of_bad_row (rows : List csvRow) (row : csvRow)
    (hmem : row ∈ rows) (hlen : row.length ≠ 4) :
    load_alias_rows rows = none := by
  induction rows with
  | nil => cases hmem
  | cons r rest ih =>
    rcases List.mem_cons.mp hmem with hr | hr
    · subst hr
      simp [load_alias_rows, load_alias_row_none_of_bad_length row hlen]
    · cases hrow : load_alias_row r with
      | none => simp [load_alias_rows, hrow]
      | some a => simp [load_alias_rows, hrow, ih hr]

/-- C10: loading mode params or aliases from an empty source filename is
reported as success while loading and propagating nothing; loading aliases
from a non-empty filename whose contents hold a row without exactly 4
fields returns false and propagates no records at all. -/
theorem C10_load_failure_modes (rows rowData : List csvRow) (f : String)
    (hf : f.isEmpty = false) (badRow : csvRow) (hmem : badRow ∈ rowData)
    (hlen : badRow.length ≠ 4) :
    kdisk_load_video_mode_params "" rows = (true, none) ∧
    kdisk_load_aliases "" rows = (true, none) ∧
    kdisk_load_aliases f rowData = (false, none) := by
  refine ⟨?_, ?_, ?_⟩
  · simp [kdisk_load_video_mode_params, show ("".isEmpty = true) from rfl]
  · simp [kdisk_load_aliases, show ("".isEmpty = true) from rfl]
  · simp [kdisk_load_aliases, hf, load_alias_rows_none_of_bad_row rowData badRow hmem hlen]

/-- C10 witness: a concrete malformed alias file (one 1-field row) under a
non-empty filename fails with nothing propagated, while the empty filename
is reported as success with nothing loaded. -/
theorem C10_load_failure_modes_witness :
    kdisk_load_video_mode_params "" [[.str "x"]] = (true, none) ∧
    kdisk_load_aliases "" [[.str "x"]] = (true, none) ∧
    kdisk_load_aliases "aliases.csv" [[.str "x"]] = (false, none) :=
  C10_load_failure_modes [[.str "x"]] [[.str "x"]] "aliases.csv" (by decide)
    [.str "x"] (by decide) (by decide)

/-- A concrete large-area mode record for the C7/C9 theorems. -/
def exampleLargeMode : video_mode_params_s := sampleParams 1 ⟨100, 100, 0⟩

/-- A concrete small-area mode record for the C7/C9 theorems. -/
def exampleSmallMode : video_mode_params_s := sampleParams 2 ⟨2, 2, 0⟩

/-- C7 counterexample: a stored file holding the 100×100 record before the
2×2 record loads as [2×2, 100×100] — kdisk_load_video_mode_params sorts by
resolution area and does not preserve the stored order. -/
theorem C7_load_order_counterexample :
    (kdisk_load_video_mode_params "modes.csv"
        (mode_params_rows exampleLargeMode ++ mode_params_rows exampleSmallMode)).2 =
      some [exampleSmallMode, exampleLargeMode] ∧
    [exampleSmallMode, exampleLargeMode] ≠ [exampleLargeMode, exampleSmallMode] := by
  constructor
  · rfl
  · decide

/-- C7 (amended): the result of a known-mode parameter lookup depends only
on which resolutions are present in the list (matched by resolution
equality), not on the order of the entries, whenever no two entries carry
the same resolution; and loading the list from disk orders it ascending by
resolution area w*h rather than preserving the stored order. -/
theorem C7_lookup_order_independent_load_sorted :
    (∀ (defaultParams : video_mode_params_s) (r : resolution_s)
        (l1 l2 : List video_mode_params_s), l1.Perm l2 →
        l1.Pairwise (fun x y => ¬(x.r.w = y.r.w ∧ x.r.h = y.r.h)) →
        known_mode_params defaultParams l1 r = known_mode_params defaultParams l2 r) ∧
    (∀ (f : String) (rows : List csvRow) (ps : List video_mode_params_s),
        kdisk_load_video_mode_params f rows = (true, some ps) →
        ps.Pairwise (fun a b => a.r.w * a.r.h ≤ b.r.w * b.r.h)) := by
  constructor
  · intro defaultParams r l1 l2 hperm hnd
    unfold known_mode_params
    rw [find?_congr_of_perm_of_subsingleton _ hperm]
    intro x hx y hy hpx hpy
    by_cases hxy : x = y
    · exact hxy
    · exfalso
      have hsymm : Symmetric (fun x y : video_mode_params_s =>
          ¬(x.r.w = y.r.w ∧ x.r.h = y.r.h)) :=
        fun a b hab hba => hab ⟨hba.1.symm, hba.2.symm⟩
    -- both entries match the same resolution, so they share a key
      have hxm : x.r.w = r.w ∧ x.r.h = r.h := by
        simpa [modeMatches] using hpx
      have hym : y.r.w = r.w ∧ y.r.h = r.h := by
        simpa [modeMatches] using hpy
      exact (hnd.forall hsymm hx hy hxy) ⟨hxm.1.trans hym.1.symm, hxm.2.trans hym.2.symm⟩
  · intro f rows ps hload
    unfold kdisk_load_video_mode_params at hload
    by_cases hf : f.isEmpty
    · rw [if_pos hf] at hload
      simp at hload
    · rw [if_neg hf] at hload
      cases hblocks : load_mode_params_blocks rows.length rows with
      | none => rw [hblocks] at hload; simp at hload
      | some qs =>
        rw [hblocks] at hload
        have hps : ps = sort_mode_params_by_area qs := by
          simpa using hload.symm
        subst hps
        unfold sort_mode_params_by_area
        haveI : IsTotal video_mode_params_s (fun a b => a.r.w * a.r.h ≤ b.r.w * b.r.h) :=
          ⟨fun a b => Nat.le_total _ _⟩
        haveI : IsTrans video_mode_params_s (fun a b => a.r.w * a.r.h ≤ b.r.w * b.r.h) :=
          ⟨fun _ _ _ hab hbc => Nat.le_trans hab hbc⟩
        exact List.sorted_insertionSort _ _

/-- C7 witness: lookup agreement across a concrete reordering of a
duplicate-free two-entry list, and sortedness of a concretely loaded
list. -/
theorem C7_lookup_order_independent_load_sorted_witness :
    known_mode_params (sampleParams 0 ⟨0, 0, 0⟩)
        [exampleSmallMode, exampleLargeMode] ⟨2, 2, 0⟩ =
      known_mode_params (sampleParams 0 ⟨0, 0, 0⟩)
        [exampleLargeMode, exampleSmallMode] ⟨2, 2, 0⟩ ∧
    List.Pairwise (fun a b : video_mode_params_s => a.r.w * a.r.h ≤ b.r.w * b.r.h)
      [exampleSmallMode, exampleLargeMode] :=
  ⟨C7_lookup_order_independent_load_sorted.1 _ ⟨2, 2, 0⟩ _ _
      (List.Perm.swap exampleLargeMode exampleSmallMode []) (by decide),
   C7_lookup_order_independent_load_sorted.2 "modes.csv"
      (mode_params_rows exampleLargeMode ++ mode_params_rows exampleSmallMode)
      [exampleSmallMode, exampleLargeMode] (by rfl)⟩

/-- A record's resolution with the bpp field replaced by the loader's
default 0; the saved file never carries bpp. -/
def clear_mode_params_bpp (m : video_mode_params_s) : video_mode_params_s :=
  { m with r := { m.r with bpp := 0 } }

/-- The numeric fields a video_mode_params_s can hold in the C++ data model:
w and h fit the 32-bit `unsigned long` of the Windows build target, and the
thirteen adjustment values fit a non-negative `int`. -/
def mode_params_representable (m : video_mode_params_s) : Prop :=
  m.r.w < 2 ^ 32 ∧ m.r.h < 2 ^ 32 ∧
  m.video.verticalPosition < 2 ^ 31 ∧ m.video.horizontalPosition < 2 ^ 31 ∧
  m.video.horizontalScale < 2 ^ 31 ∧ m.video.phase < 2 ^ 31 ∧
  m.video.blackLevel < 2 ^ 31 ∧
  m.color.overallBrightness < 2 ^ 31 ∧ m.color.overallContrast < 2 ^ 31 ∧
  m.color.redBrightness < 2 ^ 31 ∧ m.color.redContrast < 2 ^ 31 ∧
  m.color.greenBrightness < 2 ^ 31 ∧ m.color.greenContrast < 2 ^ 31 ∧
  m.color.blueBrightness < 2 ^ 31 ∧ m.color.blueContrast < 2 ^ 31

/-- One saved block parses back to the saved record (with the loader's
default bpp), leaving the remaining rows untouched. -/
theorem load_block_of_saved_rows (m : video_mode_params_s) (rest : List csvRow)
    (hm : mode_params_representable m) :
    load_mode_params_block (mode_params_rows m ++ rest) =
      some (clear_mode_params_bpp m, rest) := by
  obtain ⟨hw, hh, h1, h2, h3, h4, h5, h6, h7, h8, h9, h10, h11, h12, h13⟩ := hm
  norm_num at hw hh h1 h2 h3 h4 h5 h6 h7 h8 h9 h10 h11 h12 h13
  simp [mode_params_rows, load_mode_params_block, get_mode_param, cellToInt, cellToUInt,
        clear_mode_params_bpp, hw, hh, h1, h2, h3, h4, h5, h6, h7, h8, h9, h10, h11, h12, h13]

/-- The block loop parses a whole saved file back to the saved records, for
any sufficient fuel. -/
theorem load_blocks_of_saved_rows (L : List video_mode_params_s) :
    ∀ fuel : Nat, L.length ≤ fuel →
      (∀ m ∈ L, mode_params_representable m) →
      load_mode_params_blocks fuel (kdisk_save_mode_params L) =
        some (L.map clear_mode_params_bpp) := by
  induction L with
  | nil =>
    intro fuel _ _
    cases fuel <;> simp [kdisk_save_mode_params, load_mode_params_blocks]
  | cons m L ih =>
    intro fuel hfuel hrep
    obtain ⟨k, rfl⟩ : ∃ k, fuel = k + 1 :=
      ⟨fuel - 1, (Nat.succ_pred_eq_of_pos (Nat.lt_of_lt_of_le (Nat.succ_pos _) hfuel)).symm⟩
    have hsave : kdisk_save_mode_params (m :: L) =
        mode_params_rows m ++ kdisk_save_mode_params L := by
      simp [kdisk_save_mode_params]
    have hblock := load_block_of_saved_rows m (kdisk_save_mode_params L)
      (hrep m (List.mem_cons_self m L))
    have hrest := ih k (Nat.le_of_succ_le_succ hfuel)
      (fun x hx => hrep x (List.mem_cons_of_mem m hx))
    rw [hsave]
    have hne : ∃ r rs, mode_params_rows m ++ kdisk_save_mode_params L = r :: rs := by
      simp [mode_params_rows]
    obtain ⟨r, rs, hcons⟩ := hne
    rw [hcons]
    rw [hcons] at hblock
    simp [load_mode_params_blocks, hblock, hrest]

/-- Each saved block contributes exactly its 14 rows. -/
theorem kdisk_save_mode_params_length (L : List video_mode_params_s) :
    (kdisk_save_mode_params L).length = 14 * L.length := by
  induction L with
  | nil => simp [kdisk_save_mode_params]
  | cons m L ih =>
    simp only [kdisk_save_mode_params] at ih ⊢
    simp only [List.map_cons, List.flatten_cons, List.length_append, ih, List.length_cons]
    have h14 : (mode_params_rows m).length = 14 := by simp [mode_params_rows]
    rw [h14]
    ring

instance : DecidablePred mode_params_representable := fun m => by
  unfold mode_params_representable
  infer_instance

/-- C9: for every list of representable mode-params records, saving and then
loading yields success with exactly the saved records — width, height and
all thirteen parameters preserved, the bpp replaced by the loader's default
0 — reordered ascending by resolution area w*h. -/
theorem C9_mode_params_round_trip (L : List video_mode_params_s) (f : String)
    (hf : f.isEmpty = false) (hrep : ∀ m ∈ L, mode_params_representable m) :
    kdisk_load_video_mode_params f (kdisk_save_mode_params L) =
      (true, some (sort_mode_params_by_area (L.map clear_mode_params_bpp))) ∧
    (sort_mode_params_by_area (L.map clear_mode_params_bpp)).Perm
      (L.map clear_mode_params_bpp) ∧
    (sort_mode_params_by_area (L.map clear_mode_params_bpp)).Pairwise
      (fun a b => a.r.w * a.r.h ≤ b.r.w * b.r.h) ∧
    (∀ p ∈ sort_mode_params_by_area (L.map clear_mode_params_bpp), p.r.bpp = 0) := by
  have hlen : L.length ≤ (kdisk_save_mode_params L).length := by
    rw [kdisk_save_mode_params_length]
    omega
  have hblocks := load_blocks_of_saved_rows L (kdisk_save_mode_params L).length hlen hrep
  refine ⟨?_, ?_, ?_, ?_⟩
  · simp [kdisk_load_video_mode_params, hf, hblocks]
  · exact List.perm_insertionSort _ _
  · haveI : IsTotal video_mode_params_s (fun a b => a.r.w * a.r.h ≤ b.r.w * b.r.h) :=
      ⟨fun a b => Nat.le_total _ _⟩
    haveI : IsTrans video_mode_params_s (fun a b => a.r.w * a.r.h ≤ b.r.w * b.r.h) :=
      ⟨fun _ _ _ hab hbc => Nat.le_trans hab hbc⟩
    exact List.sorted_insertionSort _ _
  · intro p hp
    have hp' : p ∈ L.map clear_mode_params_bpp :=
      (List.perm_insertionSort _ _).mem_iff.mp hp
    obtain ⟨q, _, rfl⟩ := List.mem_map.mp hp'
    rfl

/-- C9 witness: the round trip at a concrete two-record list whose records
carry a nonzero bpp (dropped by the round trip) and arrive sorted by
area. -/
theorem C9_mode_params_round_trip_witness :
    kdisk_load_video_mode_params "modes.csv"
        (kdisk_save_mode_params [sampleParams 3 ⟨640, 480, 24⟩, sampleParams 4 ⟨320, 200, 16⟩]) =
      (true, some (sort_mode_params_by_area
        ([sampleParams 3 ⟨640, 480, 24⟩, sampleParams 4 ⟨320, 200, 16⟩].map clear_mode_params_bpp))) ∧
    (sort_mode_params_by_area
        ([sampleParams 3 ⟨640, 480, 24⟩, sampleParams 4 ⟨320, 200, 16⟩].map clear_mode_params_bpp)).Perm
      ([sampleParams 3 ⟨640, 480, 24⟩, sampleParams 4 ⟨320, 200, 16⟩].map clear_mode_params_bpp) ∧
    (sort_mode_params_by_area
        ([sampleParams 3 ⟨640, 480, 24⟩, sampleParams 4 ⟨320, 200, 16⟩].map clear_mode_params_bpp)).Pairwise
      (fun a b => a.r.w * a.r.h ≤ b.r.w * b.r.h) ∧
    (∀ p ∈ sort_mode_params_by_area
        ([sampleParams 3 ⟨640, 480, 24⟩, sampleParams 4 ⟨320, 200, 16⟩].map clear_mode_params_bpp),
      p.r.bpp = 0) :=
  C9_mode_params_round_trip [sampleParams 3 ⟨640, 480, 24⟩, sampleParams 4 ⟨320, 200, 16⟩]
    "modes.csv" (by decide) (by decide)

end VCS
